import Mathlib

/-!
Shallow embedding of `src/scripts/fetch-meetup-data.ts`.

JavaScript objects that the script manipulates dynamically (override
documents, `Object.entries` / spread-merge targets) are modelled as
association lists in insertion order (`JsObj`).  Property read follows the
semantics of objects produced by `JSON.parse` and of property assignment:
a later binding for the same key wins (`objGet`), and assignment replaces
an existing binding in place or appends a fresh one (`objSet`).

JSON `null` is modelled as `Option.none`; override field values are
nullable strings, matching the declared `MeetupDataOverride` interfaces.

The typed records produced by the script (`MeetupData.meetup`, each
speaker, the sponsor) carry their declared fields plus an `extra`
association list holding any property added by a spread-merge under a key
that is not one of the declared string-valued fields — this is how the
embedding represents `{ ...target, ...overrides }` landing an unknown key
on the object.  `getProp`/`setProp` give the uniform string-property view
of such a record that JavaScript property access provides.
-/

/-- Association-list representation of a JavaScript object, in insertion order. -/
abbrev JsObj (α : Type) : Type := List (String × α)

/-- Property read `obj[key]`: the last binding for `key` wins (the semantics of
objects built by `JSON.parse` and by repeated assignment). -/
def objGet {α : Type} : JsObj α → String → Option α
  | [], _ => none
  | e :: t, key =>
    match objGet t key with
    | some v => some v
    | none => if e.1 = key then some e.2 else none

/-- Property assignment `obj[key] = v`: replace an existing binding in place,
otherwise append a fresh binding at the end. -/
def objSet {α : Type} (l : JsObj α) (key : String) (v : α) : JsObj α :=
  if l.any (fun e => e.1 = key) then
    l.map (fun e => if e.1 = key then (key, v) else e)
  else l ++ [(key, v)]

/-! Raw remote shapes (the TypeScript `Speaker`, `SessionData`, `Session`,
`SponsorData`, `Sponsor`, `Meetup` interfaces).  The fields that the code
guards against being null at runtime (`Session_id`, nested `speakers`,
`Sponsor_id`) are `Option`-valued. -/

/-- Remote speaker record (`interface Speaker`). -/
structure Speaker where
  id : String
  name : String
  github_account : Option String
deriving DecidableEq

/-- Session payload (`interface SessionData`): a title plus the nested speaker
object, which may be null at runtime. -/
structure SessionData where
  title : String
  speakers : Option Speaker
deriving DecidableEq

/-- Session wrapper (`interface Session`). -/
structure Session where
  id : Nat
  Session_id : Option SessionData
deriving DecidableEq

/-- Logo payload nested in a sponsor (`Logo` field of `SponsorData`). -/
structure LogoData where
  filename_disk : String
deriving DecidableEq

/-- Remote sponsor record (`interface SponsorData`). -/
structure SponsorData where
  id : String
  Name : String
  Logo : Option LogoData
deriving DecidableEq

/-- Sponsor wrapper (`interface Sponsor`). -/
structure Sponsor where
  id : Nat
  Sponsor_id : Option SponsorData
deriving DecidableEq

/-- Remote meetup record (`interface Meetup`). -/
structure Meetup where
  id : Nat
  title : String
  Date : String
  Venue : String
  Location : String
  Time : String
  sessions : List Session
  sponsors : List Sponsor
deriving DecidableEq

/-! Produced shapes (the `MeetupData` interface). -/

/-- The `meetup` section of `MeetupData`.  `extra` holds properties added by a
spread-merge under keys outside the declared string-valued fields (the numeric
`id` sits outside the string-property view). -/
structure MeetupInfo where
  id : Nat
  title : String
  date : String
  venue : String
  location : String
  time : String
  extra : JsObj String
deriving DecidableEq

/-- One entry of `MeetupData.speakers`. -/
structure SpeakerInfo where
  name : String
  talkTitle : String
  githubUsername : Option String
  githubAvatar : Option String
  company : Option String
  jobTitle : Option String
  bio : Option String
  extra : JsObj String
deriving DecidableEq

/-- The `sponsor` section of `MeetupData`. -/
structure SponsorInfo where
  name : String
  logo : Option String
  extra : JsObj String
deriving DecidableEq

/-- The produced `MeetupData` structure. -/
@[ext]
structure MeetupData where
  meetup : MeetupInfo
  speakers : List SpeakerInfo
  sponsor : Option SponsorInfo
deriving DecidableEq

/-- The `MeetupDataOverride` interface: three optional sections; the speaker
section maps speaker names to sparse override objects. -/
structure MeetupDataOverride where
  meetup : Option (JsObj (Option String))
  speakers : Option (JsObj (JsObj (Option String)))
  sponsor : Option (JsObj (Option String))
deriving DecidableEq

/-- Content of the override file: either text that `JSON.parse` rejects, or a
parsed override document. -/
inductive OverrideFileContent where
  | invalid (raw : String)
  | valid (doc : MeetupDataOverride)
deriving DecidableEq

/-! Extraction (the pure part of `fetchMeetupData`) and its helpers. -/

/-- `getGithubAvatar` from the script: `if (!username) return null` — both null
and the empty string are falsy — else the fixed URL template. -/
def getGithubAvatar : Option String → Option String
  | none => none
  | some username =>
    if username.isEmpty then none
    else some ("https://github.com/" ++ username ++ ".png")

/-- The expression `speaker.github_account || null`: an absent or empty (falsy)
username is coerced to null. -/
def orNull : Option String → Option String
  | none => none
  | some s => if s.isEmpty then none else some s

/-- The body of the `.map` in the speaker extraction of `fetchMeetupData`. -/
def speakerOfSession (sessionData : SessionData) (speaker : Speaker) : SpeakerInfo :=
  { name := speaker.name
    talkTitle := sessionData.title
    githubUsername := orNull speaker.github_account
    githubAvatar := getGithubAvatar (orNull speaker.github_account)
    company := none
    jobTitle := none
    bio := none
    extra := [] }

/-- Speaker extraction of `fetchMeetupData`:
`meetup.sessions.filter(s => s.Session_id && s.Session_id.speakers).map(...)`,
with the filter and the map fused (the map only dereferences what the filter
guarantees non-null). -/
def extractSpeakers : List Session → List SpeakerInfo
  | [] => []
  | session :: rest =>
    match session.Session_id with
    | none => extractSpeakers rest
    | some sessionData =>
      match sessionData.speakers with
      | none => extractSpeakers rest
      | some speaker => speakerOfSession sessionData speaker :: extractSpeakers rest

/-- `getSponsorLogoUrl` from the script. -/
def getSponsorLogoUrl (filename : String) : String :=
  "https://frontend.mu/assets/" ++ filename

/-- Sponsor extraction of `fetchMeetupData`: `meetup.sponsors[0]` (undefined on
an empty list), guarded by `firstSponsor && firstSponsor.Sponsor_id`. -/
def extractSponsor (sponsors : List Sponsor) : Option SponsorInfo :=
  match sponsors.head? with
  | none => none
  | some firstSponsor =>
    match firstSponsor.Sponsor_id with
    | none => none
    | some sponsorData =>
      some { name := sponsorData.Name
             logo := match sponsorData.Logo with
                     | some logo => some (getSponsorLogoUrl logo.filename_disk)
                     | none => none
             extra := [] }

/-- The initial `MeetupData` built by `fetchMeetupData` before overrides. -/
def buildMeetupData (meetup : Meetup) : MeetupData :=
  { meetup := { id := meetup.id
                title := meetup.title
                date := meetup.Date
                venue := meetup.Venue
                location := meetup.Location
                time := meetup.Time
                extra := [] }
    speakers := extractSpeakers meetup.sessions
    sponsor := extractSponsor meetup.sponsors }

/-! The merge engine (`applyOverrides`) and its helpers. -/

/-- `removeNulls` from `applyOverrides`:
`Object.fromEntries(Object.entries(obj).filter(([_, v]) => v !== null))`. -/
def removeNulls (obj : JsObj (Option String)) : JsObj String :=
  obj.filterMap (fun e =>
    match e.2 with
    | some v => some (e.1, v)
    | none => none)

/-- `normalizeFieldNames` from `applyOverrides`: rebuild the object entry by
entry, rewriting the key `jobtitle` to `jobTitle` and keeping every other key. -/
def normalizeFieldNames (obj : JsObj (Option String)) : JsObj (Option String) :=
  obj.foldl
    (fun normalized e =>
      objSet normalized (if e.1 = "jobtitle" then "jobTitle" else e.1) e.2)
    []

/-- The spread-merge `{ ...target, ...validOverrides }`, applied with the given
per-record property-assignment function. -/
def mergeObj {R : Type} (set : R → String → String → R)
    (target : R) (validOverrides : JsObj String) : R :=
  validOverrides.foldl (fun acc e => set acc e.1 e.2) target

/-- Property assignment on the meetup section.  The five declared string fields
are written directly; any other key (including the numeric `id`, which sits
outside the string-property view) lands in `extra`. -/
def MeetupInfo.setProp (m : MeetupInfo) (key v : String) : MeetupInfo :=
  if key = "title" then { m with title := v }
  else if key = "date" then { m with date := v }
  else if key = "venue" then { m with venue := v }
  else if key = "location" then { m with location := v }
  else if key = "time" then { m with time := v }
  else { m with extra := objSet m.extra key v }

/-- String-property read on the meetup section (JavaScript property access on
the produced object). -/
def MeetupInfo.getProp (m : MeetupInfo) (key : String) : Option String :=
  if key = "title" then some m.title
  else if key = "date" then some m.date
  else if key = "venue" then some m.venue
  else if key = "location" then some m.location
  else if key = "time" then some m.time
  else objGet m.extra key

/-- Property assignment on a speaker entry. -/
def SpeakerInfo.setProp (s : SpeakerInfo) (key v : String) : SpeakerInfo :=
  if key = "name" then { s with name := v }
  else if key = "talkTitle" then { s with talkTitle := v }
  else if key = "githubUsername" then { s with githubUsername := some v }
  else if key = "githubAvatar" then { s with githubAvatar := some v }
  else if key = "company" then { s with company := some v }
  else if key = "jobTitle" then { s with jobTitle := some v }
  else if key = "bio" then { s with bio := some v }
  else { s with extra := objSet s.extra key v }

/-- String-property read on a speaker entry. -/
def SpeakerInfo.getProp (s : SpeakerInfo) (key : String) : Option String :=
  if key = "name" then some s.name
  else if key = "talkTitle" then some s.talkTitle
  else if key = "githubUsername" then s.githubUsername
  else if key = "githubAvatar" then s.githubAvatar
  else if key = "company" then s.company
  else if key = "jobTitle" then s.jobTitle
  else if key = "bio" then s.bio
  else objGet s.extra key

/-- Property assignment on the sponsor section. -/
def SponsorInfo.setProp (s : SponsorInfo) (key v : String) : SponsorInfo :=
  if key = "name" then { s with name := v }
  else if key = "logo" then { s with logo := some v }
  else { s with extra := objSet s.extra key v }

/-- String-property read on the sponsor section. -/
def SponsorInfo.getProp (s : SponsorInfo) (key : String) : Option String :=
  if key = "name" then some s.name
  else if key = "logo" then s.logo
  else objGet s.extra key

/-- The meetup block of `applyOverrides`: filter nulls, skip when nothing is
left, else spread-merge over `data.meetup`. -/
def applyMeetupSection (sectionOv : Option (JsObj (Option String)))
    (data : MeetupData) : MeetupData :=
  match sectionOv with
  | none => data
  | some meetupOv =>
    let validOverrides := removeNulls meetupOv
    if validOverrides.isEmpty then data
    else { data with meetup := mergeObj MeetupInfo.setProp data.meetup validOverrides }

/-- The body of the `.map` in the speaker block of `applyOverrides`: look the
speaker's name up in the override map, normalize field names, filter nulls,
skip when nothing is left, else spread-merge over the speaker. -/
def overrideSpeaker (speakerOvs : JsObj (JsObj (Option String)))
    (speaker : SpeakerInfo) : SpeakerInfo :=
  match objGet speakerOvs speaker.name with
  | none => speaker
  | some override =>
    let validOverrides := removeNulls (normalizeFieldNames override)
    if validOverrides.isEmpty then speaker
    else mergeObj SpeakerInfo.setProp speaker validOverrides

/-- The speaker block of `applyOverrides`. -/
def applySpeakersSection (sectionOv : Option (JsObj (JsObj (Option String))))
    (data : MeetupData) : MeetupData :=
  match sectionOv with
  | none => data
  | some speakerOvs =>
    { data with speakers := data.speakers.map (overrideSpeaker speakerOvs) }

/-- The sponsor block of `applyOverrides`: guarded by
`overrides.sponsor && data.sponsor`, so nothing happens when the extracted
sponsor is null. -/
def applySponsorSection (sectionOv : Option (JsObj (Option String)))
    (data : MeetupData) : MeetupData :=
  match sectionOv with
  | none => data
  | some sponsorOv =>
    match data.sponsor with
    | none => data
    | some sponsor =>
      let validOverrides := removeNulls sponsorOv
      if validOverrides.isEmpty then data
      else { data with sponsor := some (mergeObj SponsorInfo.setProp sponsor validOverrides) }

/-- `applyOverrides` from the script: return the input unchanged on a null
override document, else run its three sequential blocks (meetup, speakers,
sponsor) in order. -/
def applyOverrides (data : MeetupData) (overrides : Option MeetupDataOverride) :
    MeetupData :=
  match overrides with
  | none => data
  | some ov =>
    applySponsorSection ov.sponsor
      (applySpeakersSection ov.speakers
        (applyMeetupSection ov.meetup data))

/-! The override store (`createOverrideTemplate`, `readOverrides`) modelled on
the abstract content of the single override file path. -/

/-- The template value built by `createOverrideTemplate`: empty meetup and
sponsor sections, and one speaker entry per extracted speaker name, each
pre-populated with the configured extra field names set to null. -/
def overrideTemplate (speakers : List String) (extraFields : List String) :
    MeetupDataOverride :=
  let speakerTemplate := extraFields.foldl (fun acc field => objSet acc field none) []
  { meetup := some []
    speakers := some (speakers.foldl (fun acc name => objSet acc name speakerTemplate) [])
    sponsor := some [] }

/-- `createOverrideTemplate`: when a file already exists at the override path
(whatever its content) nothing is written; otherwise the scaffold template is
written there. -/
def createOverrideTemplate (speakers : List String) (extraFields : List String)
    (file : Option OverrideFileContent) : Option OverrideFileContent :=
  match file with
  | some existing => some existing
  | none => some (OverrideFileContent.valid (overrideTemplate speakers extraFields))

/-- `readOverrides`: a missing file yields no overrides; content that
`JSON.parse` rejects is caught and also yields no overrides; valid content
yields the parsed document. -/
def readOverrides (file : Option OverrideFileContent) : Option MeetupDataOverride :=
  match file with
  | none => none
  | some (OverrideFileContent.invalid _) => none
  | some (OverrideFileContent.valid doc) => some doc

/-- The override phase of `fetchMeetupData`: create the template if the file is
absent, then read the (possibly just created) file and apply the overrides. -/
def runOverridePhase (data : MeetupData) (speakerNames extraFields : List String)
    (file : Option OverrideFileContent) : MeetupData :=
  let written := createOverrideTemplate speakerNames extraFields file
  applyOverrides data (readOverrides written)

/-- Fallback used by the claim-side `match none` branch of
`extractSpeakersSpec` (never reached behind the filter). -/
def defaultSpeakerInfo : SpeakerInfo :=
  { name := ""
    talkTitle := ""
    githubUsername := none
    githubAvatar := none
    company := none
    jobTitle := none
    bio := none
    extra := [] }

/-- Claim-side predicate: the session carries a non-null nested speaker
object. -/
def hasPopulatedSpeaker (session : Session) : Bool :=
  match session.Session_id with
  | none => false
  | some sessionData => sessionData.speakers.isSome

/-- Claim-side (spec-worded) speaker extraction: keep exactly the sessions with
a populated nested speaker, in original order, and map each to its entry. -/
def extractSpeakersSpec (sessions : List Session) : List SpeakerInfo :=
  (sessions.filter hasPopulatedSpeaker).map (fun session =>
    match session.Session_id with
    | some sessionData =>
      match sessionData.speakers with
      | some speaker => speakerOfSession sessionData speaker
      | none => defaultSpeakerInfo
    | none => defaultSpeakerInfo)

/-- Claim-side avatar template (`https://github.com/` ++ username ++ `.png`). -/
def avatarTemplate (username : String) : String :=
  "https://github.com/" ++ username ++ ".png"

/-- Claim-side avatar-consistency invariant: each speaker's `githubAvatar` is
exactly the template applied to its `githubUsername` (so non-null iff the
username is non-null). -/
def avatarConsistent (data : MeetupData) : Prop :=
  forall speaker, speaker ∈ data.speakers →
    speaker.githubAvatar = speaker.githubUsername.map avatarTemplate

instance (data : MeetupData) : Decidable (avatarConsistent data) :=
  List.decidableBAll _ data.speakers

/-- Claim-side check that an override object carries only null values. -/
def allNullObj (obj : JsObj (Option String)) : Bool :=
  obj.all (fun e => e.2 == none)

/-- Claim-side check that every field value of an override document (meetup
section, every speaker entry, sponsor section) is null. -/
def allNullDoc (ov : MeetupDataOverride) : Bool :=
  (match ov.meetup with
   | none => true
   | some obj => allNullObj obj) &&
  (match ov.speakers with
   | none => true
   | some speakerOvs => speakerOvs.all (fun e => allNullObj e.2)) &&
  (match ov.sponsor with
   | none => true
   | some obj => allNullObj obj)

/-! Concrete sample inputs used by witnesses and counterexamples. -/

/-- Sample remote speaker "Jane" with the GitHub handle `janedev`. -/
def janeSpeaker : Speaker :=
  { id := "sp1", name := "Jane", github_account := some "janedev" }

/-- Sample remote meetup: two sessions (one with speaker Jane, one whose nested
speaker is null) and one sponsor named Acme with no logo. -/
def sampleMeetup : Meetup :=
  { id := 42
    title := "Meetup 42"
    Date := "2025-01-01"
    Venue := "V"
    Location := "L"
    Time := "10:00"
    sessions := [{ id := 1, Session_id := some { title := "Talk One", speakers := some janeSpeaker } },
                 { id := 2, Session_id := some { title := "No Speaker", speakers := none } }]
    sponsors := [{ id := 1, Sponsor_id := some { id := "s1", Name := "Acme", Logo := none } }] }

/-- Sample extracted speaker named "A" with no company. -/
def speakerA : SpeakerInfo :=
  { name := "A", talkTitle := "T", githubUsername := none, githubAvatar := none
    company := none, jobTitle := none, bio := none, extra := [] }

/-- Sample `MeetupData` with speaker "A" and a sponsor "S". -/
def dataA : MeetupData :=
  { meetup := { id := 1, title := "t", date := "d", venue := "v", location := "l"
                time := "tm", extra := [] }
    speakers := [speakerA]
    sponsor := some { name := "S", logo := none, extra := [] } }

/-- `dataA` without a sponsor. -/
def dataNoSponsor : MeetupData :=
  { dataA with sponsor := none }

/-- Override document setting speaker A's company to "Acme". -/
def ovAcme : MeetupDataOverride :=
  { meetup := none, speakers := some [("A", [("company", some "Acme")])], sponsor := none }

/-- Override document whose every field value is null. -/
def ovNull : MeetupDataOverride :=
  { meetup := some [("title", none)]
    speakers := some [("A", [("company", none)])]
    sponsor := some [("name", none)] }

/-- Override document replacing Jane's GitHub username (and nothing else). -/
def ovGithub : MeetupDataOverride :=
  { meetup := none
    speakers := some [("Jane", [("githubUsername", some "someone")])]
    sponsor := none }

/-- Override document with a `jobtitle` key in the sponsor section. -/
def ovJobSponsor : MeetupDataOverride :=
  { meetup := none, speakers := none, sponsor := some [("jobtitle", some "Eng")] }

/-! Lemmas about the object model. -/

/-- Unfolding lemma: reading a cons cell prefers the later bindings. -/
theorem objGet_cons {α : Type} (e : String × α) (t : JsObj α) (key : String) :
    objGet (e :: t) key = (objGet t key).or (if e.1 = key then some e.2 else none) := by
  cases h : objGet t key <;> simp [objGet, h]

/-- Reading after appending a single binding: the appended binding wins. -/
theorem objGet_append_single {α : Type} (key : String) (v : α) :
    ∀ (l : JsObj α) (k : String),
      objGet (l ++ [(key, v)]) k = if key = k then some v else objGet l k
  | [], k => by
    by_cases h : key = k <;> simp [objGet, h]
  | e :: t, k => by
    have ih := objGet_append_single key v t k
    rw [List.cons_append, objGet_cons, ih]
    by_cases h : key = k
    · rw [if_pos h, if_pos h, Option.or_some]
    · rw [if_neg h, if_neg h, objGet_cons]

/-- Reading after replacing every binding of `key` by `(key, v)`. -/
theorem objGet_map_replace {α : Type} (key : String) (v : α) :
    ∀ (l : JsObj α) (k : String),
      objGet (l.map (fun e => if e.1 = key then (key, v) else e)) k
        = if key = k then (if l.any (fun e => e.1 = key) then some v else none)
          else objGet l k
  | [], k => by by_cases h : key = k <;> simp [objGet, h]
  | e :: t, k => by
    have ih := objGet_map_replace key v t k
    rw [List.map_cons, objGet_cons, ih]
    by_cases hk : key = k
    · subst hk
      simp only [eq_self_iff_true, if_true]
      by_cases he : e.1 = key
      · cases hat : t.any (fun e => e.1 = key) <;>
          simp [he, hat, List.any_cons, Option.or_some, Option.none_or]
      · simp only [List.any_cons, show decide (e.1 = key) = false by simp [he],
          Bool.false_or]
        simp [he, Option.or_none]
    · rw [if_neg hk, if_neg hk, objGet_cons]
      by_cases he : e.1 = key
      · simp [he, hk]
      · simp [he]

/-- Reading after an assignment: the assigned key now holds the assigned value
and every other key is untouched. -/
theorem objGet_objSet {α : Type} (l : JsObj α) (key : String) (v : α) (k : String) :
    objGet (objSet l key v) k = if key = k then some v else objGet l k := by
  unfold objSet
  by_cases hany : l.any (fun e => e.1 = key) <;>
    simp [hany, objGet_map_replace, objGet_append_single]

/-- Every entry of an assigned object is an original entry or the assigned
binding. -/
theorem mem_objSet {α : Type} {l : JsObj α} {key : String} {v : α} {e : String × α}
    (he : e ∈ objSet l key v) : e ∈ l ∨ e = (key, v) := by
  unfold objSet at he
  by_cases hany : l.any (fun a => a.1 = key)
  · rw [if_pos hany] at he
    obtain ⟨a, ha, hae⟩ := List.mem_map.mp he
    by_cases h : a.1 = key
    · right
      rw [if_pos h] at hae
      exact hae.symm
    · left
      rw [if_neg h] at hae
      exact hae ▸ ha
  · rw [if_neg hany] at he
    rcases List.mem_append.mp he with h | h
    · exact Or.inl h
    · exact Or.inr (List.mem_singleton.mp h)

/-- When an assignment finds no binding of its key it appends one. -/
theorem objSet_of_not_any {α : Type} {l : JsObj α} {key : String} (v : α)
    (h : l.any (fun e => e.1 = key) = false) : objSet l key v = l ++ [(key, v)] := by
  unfold objSet
  rw [if_neg (by simp [h])]

/-- A successful read comes from some entry of the object. -/
theorem objGet_eq_some_mem {α : Type} :
    ∀ {l : JsObj α} {k : String} {v : α}, objGet l k = some v →
      ∃ e ∈ l, e.1 = k ∧ e.2 = v
  | [], k, v, h => by simp [objGet] at h
  | e :: t, k, v, h => by
    rw [objGet_cons] at h
    cases ht : objGet t k with
    | some w =>
      rw [ht, Option.or_some] at h
      obtain rfl : w = v := by injection h
      obtain ⟨a, ha, hk, hv⟩ := objGet_eq_some_mem ht
      exact ⟨a, List.mem_cons_of_mem _ ha, hk, hv⟩
    | none =>
      rw [ht, Option.none_or] at h
      by_cases hek : e.1 = k
      · rw [if_pos hek] at h
        exact ⟨e, List.mem_cons_self _ _, hek, by injection h⟩
      · rw [if_neg hek] at h
        exact absurd h (by simp)

/-- Reading a meetup-section property after assigning one. -/
theorem getProp_setProp_meetupInfo (m : MeetupInfo) (k2 v k : String) :
    (m.setProp k2 v).getProp k = if k2 = k then some v else m.getProp k := by
  unfold MeetupInfo.setProp
  by_cases hne : k2 = k
  · rw [if_pos hne]
    subst hne
    by_cases h1 : k2 = "title"
    · rw [if_pos h1]
      subst h1
      unfold MeetupInfo.getProp
      rw [if_pos rfl]
    · rw [if_neg h1]
      by_cases h2 : k2 = "date"
      · rw [if_pos h2]
        subst h2
        unfold MeetupInfo.getProp
        rw [if_neg h1, if_pos rfl]
      · rw [if_neg h2]
        by_cases h3 : k2 = "venue"
        · rw [if_pos h3]
          subst h3
          unfold MeetupInfo.getProp
          rw [if_neg h1, if_neg h2, if_pos rfl]
        · rw [if_neg h3]
          by_cases h4 : k2 = "location"
          · rw [if_pos h4]
            subst h4
            unfold MeetupInfo.getProp
            rw [if_neg h1, if_neg h2, if_neg h3, if_pos rfl]
          · rw [if_neg h4]
            by_cases h5 : k2 = "time"
            · rw [if_pos h5]
              subst h5
              unfold MeetupInfo.getProp
              rw [if_neg h1, if_neg h2, if_neg h3, if_neg h4, if_pos rfl]
            · rw [if_neg h5]
              unfold MeetupInfo.getProp
              rw [if_neg h1, if_neg h2, if_neg h3, if_neg h4, if_neg h5]
              show objGet (objSet m.extra k2 v) k2 = some v
              rw [objGet_objSet, if_pos rfl]
  · rw [if_neg hne]
    by_cases h1 : k2 = "title"
    · rw [if_pos h1]
      subst h1
      have hk : ¬ k = "title" := fun h => hne h.symm
      unfold MeetupInfo.getProp
      rw [if_neg hk, if_neg hk]
    · rw [if_neg h1]
      by_cases h2 : k2 = "date"
      · rw [if_pos h2]
        subst h2
        have hk : ¬ k = "date" := fun h => hne h.symm
        unfold MeetupInfo.getProp
        rw [if_neg hk, if_neg hk]
      · rw [if_neg h2]
        by_cases h3 : k2 = "venue"
        · rw [if_pos h3]
          subst h3
          have hk : ¬ k = "venue" := fun h => hne h.symm
          unfold MeetupInfo.getProp
          rw [if_neg hk, if_neg hk]
        · rw [if_neg h3]
          by_cases h4 : k2 = "location"
          · rw [if_pos h4]
            subst h4
            have hk : ¬ k = "location" := fun h => hne h.symm
            unfold MeetupInfo.getProp
            rw [if_neg hk, if_neg hk]
          · rw [if_neg h4]
            by_cases h5 : k2 = "time"
            · rw [if_pos h5]
              subst h5
              have hk : ¬ k = "time" := fun h => hne h.symm
              unfold MeetupInfo.getProp
              rw [if_neg hk, if_neg hk]
            · rw [if_neg h5]
              unfold MeetupInfo.getProp
              rw [show objGet ({ m with extra := objSet m.extra k2 v } : MeetupInfo).extra k
                    = objGet m.extra k from by
                  show objGet (objSet m.extra k2 v) k = objGet m.extra k
                  rw [objGet_objSet, if_neg hne]]

/-- Reading a speaker property after assigning one. -/
theorem getProp_setProp_speakerInfo (s : SpeakerInfo) (k2 v k : String) :
    (s.setProp k2 v).getProp k = if k2 = k then some v else s.getProp k := by
  unfold SpeakerInfo.setProp
  by_cases hne : k2 = k
  · rw [if_pos hne]
    subst hne
    by_cases h1 : k2 = "name"
    · rw [if_pos h1]
      subst h1
      unfold SpeakerInfo.getProp
      rw [if_pos rfl]
    · rw [if_neg h1]
      by_cases h2 : k2 = "talkTitle"
      · rw [if_pos h2]
        subst h2
        unfold SpeakerInfo.getProp
        rw [if_neg h1, if_pos rfl]
      · rw [if_neg h2]
        by_cases h3 : k2 = "githubUsername"
        · rw [if_pos h3]
          subst h3
          unfold SpeakerInfo.getProp
          rw [if_neg h1, if_neg h2, if_pos rfl]
        · rw [if_neg h3]
          by_cases h4 : k2 = "githubAvatar"
          · rw [if_pos h4]
            subst h4
            unfold SpeakerInfo.getProp
            rw [if_neg h1, if_neg h2, if_neg h3, if_pos rfl]
          · rw [if_neg h4]
            by_cases h5 : k2 = "company"
            · rw [if_pos h5]
              subst h5
              unfold SpeakerInfo.getProp
              rw [if_neg h1, if_neg h2, if_neg h3, if_neg h4, if_pos rfl]
            · rw [if_neg h5]
              by_cases h6 : k2 = "jobTitle"
              · rw [if_pos h6]
                subst h6
                unfold SpeakerInfo.getProp
                rw [if_neg h1, if_neg h2, if_neg h3, if_neg h4, if_neg h5, if_pos rfl]
              · rw [if_neg h6]
                by_cases h7 : k2 = "bio"
                · rw [if_pos h7]
                  subst h7
                  unfold SpeakerInfo.getProp
                  rw [if_neg h1, if_neg h2, if_neg h3, if_neg h4, if_neg h5, if_neg h6, if_pos rfl]
                · rw [if_neg h7]
                  unfold SpeakerInfo.getProp
                  rw [if_neg h1, if_neg h2, if_neg h3, if_neg h4, if_neg h5, if_neg h6, if_neg h7]
                  show objGet (objSet s.extra k2 v) k2 = some v
                  rw [objGet_objSet, if_pos rfl]
  · rw [if_neg hne]
    by_cases h1 : k2 = "name"
    · rw [if_pos h1]
      subst h1
      have hk : ¬ k = "name" := fun h => hne h.symm
      unfold SpeakerInfo.getProp
      rw [if_neg hk, if_neg hk]
    · rw [if_neg h1]
      by_cases h2 : k2 = "talkTitle"
      · rw [if_pos h2]
        subst h2
        have hk : ¬ k = "talkTitle" := fun h => hne h.symm
        unfold SpeakerInfo.getProp
        rw [if_neg hk, if_neg hk]
      · rw [if_neg h2]
        by_cases h3 : k2 = "githubUsername"
        · rw [if_pos h3]
          subst h3
          have hk : ¬ k = "githubUsername" := fun h => hne h.symm
          unfold SpeakerInfo.getProp
          rw [if_neg hk, if_neg hk]
        · rw [if_neg h3]
          by_cases h4 : k2 = "githubAvatar"
          · rw [if_pos h4]
            subst h4
            have hk : ¬ k = "githubAvatar" := fun h => hne h.symm
            unfold SpeakerInfo.getProp
            rw [if_neg hk, if_neg hk]
          · rw [if_neg h4]
            by_cases h5 : k2 = "company"
            · rw [if_pos h5]
              subst h5
              have hk : ¬ k = "company" := fun h => hne h.symm
              unfold SpeakerInfo.getProp
              rw [if_neg hk, if_neg hk]
            · rw [if_neg h5]
              by_cases h6 : k2 = "jobTitle"
              · rw [if_pos h6]
                subst h6
                have hk : ¬ k = "jobTitle" := fun h => hne h.symm
                unfold SpeakerInfo.getProp
                rw [if_neg hk, if_neg hk]
              · rw [if_neg h6]
                by_cases h7 : k2 = "bio"
                · rw [if_pos h7]
                  subst h7
                  have hk : ¬ k = "bio" := fun h => hne h.symm
                  unfold SpeakerInfo.getProp
                  rw [if_neg hk, if_neg hk]
                · rw [if_neg h7]
                  unfold SpeakerInfo.getProp
                  rw [show objGet ({ s with extra := objSet s.extra k2 v } : SpeakerInfo).extra k
                        = objGet s.extra k from by
                      show objGet (objSet s.extra k2 v) k = objGet s.extra k
                      rw [objGet_objSet, if_neg hne]]

/-- Reading a sponsor property after assigning one. -/
theorem getProp_setProp_sponsorInfo (s : SponsorInfo) (k2 v k : String) :
    (s.setProp k2 v).getProp k = if k2 = k then some v else s.getProp k := by
  unfold SponsorInfo.setProp
  by_cases hne : k2 = k
  · rw [if_pos hne]
    subst hne
    by_cases h1 : k2 = "name"
    · rw [if_pos h1]
      subst h1
      unfold SponsorInfo.getProp
      rw [if_pos rfl]
    · rw [if_neg h1]
      by_cases h2 : k2 = "logo"
      · rw [if_pos h2]
        subst h2
        unfold SponsorInfo.getProp
        rw [if_neg h1, if_pos rfl]
      · rw [if_neg h2]
        unfold SponsorInfo.getProp
        rw [if_neg h1, if_neg h2]
        show objGet (objSet s.extra k2 v) k2 = some v
        rw [objGet_objSet, if_pos rfl]
  · rw [if_neg hne]
    by_cases h1 : k2 = "name"
    · rw [if_pos h1]
      subst h1
      have hk : ¬ k = "name" := fun h => hne h.symm
      unfold SponsorInfo.getProp
      rw [if_neg hk, if_neg hk]
    · rw [if_neg h1]
      by_cases h2 : k2 = "logo"
      · rw [if_pos h2]
        subst h2
        have hk : ¬ k = "logo" := fun h => hne h.symm
        unfold SponsorInfo.getProp
        rw [if_neg hk, if_neg hk]
      · rw [if_neg h2]
        unfold SponsorInfo.getProp
        rw [show objGet ({ s with extra := objSet s.extra k2 v } : SponsorInfo).extra k
              = objGet s.extra k from by
            show objGet (objSet s.extra k2 v) k = objGet s.extra k
            rw [objGet_objSet, if_neg hne]]

/-- Reading a property after a spread-merge: a key bound by the (null-filtered)
override takes its overriding value, every other key keeps the target's
value. -/
theorem getProp_mergeObj {R : Type} (set : R → String → String → R)
    (get : R → String → Option String)
    (hsg : ∀ s k2 v k, get (set s k2 v) k = if k2 = k then some v else get s k) :
    ∀ (l : JsObj String) (s : R) (k : String),
      get (mergeObj set s l) k = (objGet l k).or (get s k)
  | [], s, k => by simp [mergeObj, objGet]
  | e :: t, s, k => by
    have ih := getProp_mergeObj set get hsg t (set s e.1 e.2) k
    show get (List.foldl _ s (e :: t)) k = _
    rw [List.foldl_cons]
    rw [show List.foldl (fun acc e => set acc e.1 e.2) (set s e.1 e.2) t
          = mergeObj set (set s e.1 e.2) t from rfl] at *
    rw [ih, hsg, objGet_cons]
    cases ht : objGet t k with
    | some w => simp [Option.or_some]
    | none =>
      rw [Option.none_or, Option.none_or]
      by_cases he : e.1 = k
      · rw [if_pos he, if_pos he, Option.or_some]
      · rw [if_neg he, if_neg he, Option.none_or]

/-- Null-filtering an object whose values are all null leaves nothing. -/
theorem removeNulls_eq_nil {obj : JsObj (Option String)}
    (h : ∀ e ∈ obj, e.2 = none) : removeNulls obj = [] := by
  unfold removeNulls
  rw [List.filterMap_eq_nil_iff]
  intro e he
  rw [h e he]

/-- Key normalization keeps the (all-null) values of an all-null object. -/
theorem normalizeFieldNames_allNull {obj : JsObj (Option String)}
    (h : ∀ e ∈ obj, e.2 = none) : ∀ e ∈ normalizeFieldNames obj, e.2 = none := by
  have general : ∀ (l : JsObj (Option String)) (acc : JsObj (Option String)),
      (∀ e ∈ l, e.2 = none) → (∀ e ∈ acc, e.2 = none) →
      ∀ e ∈ l.foldl
        (fun normalized e =>
          objSet normalized (if e.1 = "jobtitle" then "jobTitle" else e.1) e.2) acc,
        e.2 = none := by
    intro l
    induction l with
    | nil => intro acc _ hacc; simpa using hacc
    | cons a t ih =>
      intro acc hl hacc
      rw [List.foldl_cons]
      apply ih
      · intro e he
        exact hl e (List.mem_cons_of_mem _ he)
      · intro e he
        rcases mem_objSet he with h1 | h1
        · exact hacc e h1
        · rw [h1]
          exact hl a (List.mem_cons_self _ _)
  exact general obj [] h (by simp)

/-- The meetup block leaves the speaker list alone. -/
theorem applyMeetupSection_speakers (sectionOv : Option (JsObj (Option String)))
    (data : MeetupData) : (applyMeetupSection sectionOv data).speakers = data.speakers := by
  cases sectionOv with
  | none => rfl
  | some mo =>
    unfold applyMeetupSection
    by_cases h : (removeNulls mo).isEmpty <;> simp [h]

/-- The meetup block leaves the sponsor alone. -/
theorem applyMeetupSection_sponsor (sectionOv : Option (JsObj (Option String)))
    (data : MeetupData) : (applyMeetupSection sectionOv data).sponsor = data.sponsor := by
  cases sectionOv with
  | none => rfl
  | some mo =>
    unfold applyMeetupSection
    by_cases h : (removeNulls mo).isEmpty <;> simp [h]

/-- The meetup block merges the null-filtered section over the meetup record
(an absent section or an all-null section merges nothing). -/
theorem applyMeetupSection_meetup (sectionOv : Option (JsObj (Option String)))
    (data : MeetupData) :
    (applyMeetupSection sectionOv data).meetup
      = mergeObj MeetupInfo.setProp data.meetup (removeNulls (sectionOv.getD [])) := by
  cases sectionOv with
  | none => rfl
  | some mo =>
    by_cases h : (removeNulls mo).isEmpty
    · simp [applyMeetupSection, h, List.isEmpty_iff.mp h, mergeObj]
    · simp [applyMeetupSection, h]

/-- The speaker block leaves the meetup section alone. -/
theorem applySpeakersSection_meetup (sectionOv : Option (JsObj (JsObj (Option String))))
    (data : MeetupData) : (applySpeakersSection sectionOv data).meetup = data.meetup := by
  cases sectionOv <;> rfl

/-- The speaker block leaves the sponsor alone. -/
theorem applySpeakersSection_sponsor (sectionOv : Option (JsObj (JsObj (Option String))))
    (data : MeetupData) : (applySpeakersSection sectionOv data).sponsor = data.sponsor := by
  cases sectionOv <;> rfl

/-- The speaker block maps the per-speaker override step over the speaker list
(an absent section changes no speaker). -/
theorem applySpeakersSection_speakers (sectionOv : Option (JsObj (JsObj (Option String))))
    (data : MeetupData) :
    (applySpeakersSection sectionOv data).speakers
      = data.speakers.map (overrideSpeaker (sectionOv.getD [])) := by
  cases sectionOv with
  | none =>
    show data.speakers = _
    have h : ∀ sp ∈ data.speakers, sp = overrideSpeaker [] sp := by
      intro sp _
      rfl
    exact (List.map_congr_left (fun sp hsp => (h sp hsp).symm)).symm ▸
      (List.map_id' data.speakers).symm ▸ rfl
  | some speakerOvs => rfl

/-- The sponsor block leaves the meetup section alone. -/
theorem applySponsorSection_meetup (sectionOv : Option (JsObj (Option String)))
    (data : MeetupData) : (applySponsorSection sectionOv data).meetup = data.meetup := by
  cases sectionOv with
  | none => rfl
  | some so =>
    unfold applySponsorSection
    cases data.sponsor with
    | none => rfl
    | some sp => by_cases h : (removeNulls so).isEmpty <;> simp [h]

/-- The sponsor block leaves the speaker list alone. -/
theorem applySponsorSection_speakers (sectionOv : Option (JsObj (Option String)))
    (data : MeetupData) : (applySponsorSection sectionOv data).speakers = data.speakers := by
  cases sectionOv with
  | none => rfl
  | some so =>
    unfold applySponsorSection
    cases data.sponsor with
    | none => rfl
    | some sp => by_cases h : (removeNulls so).isEmpty <;> simp [h]

/-- The sponsor block merges the null-filtered section over the sponsor when
one exists and does nothing when the extracted sponsor is null. -/
theorem applySponsorSection_sponsor (sectionOv : Option (JsObj (Option String)))
    (data : MeetupData) :
    (applySponsorSection sectionOv data).sponsor
      = data.sponsor.map
          (fun sp => mergeObj SponsorInfo.setProp sp (removeNulls (sectionOv.getD []))) := by
  cases sectionOv with
  | none =>
    show data.sponsor = _
    cases data.sponsor <;> simp [mergeObj, removeNulls]
  | some so =>
    cases hds : data.sponsor with
    | none => simp [applySponsorSection, hds]
    | some sp =>
      by_cases h : (removeNulls so).isEmpty
      · simp [applySponsorSection, hds, h, List.isEmpty_iff.mp h, mergeObj]
      · simp [applySponsorSection, hds, h]

/-- The meetup section of a merged `MeetupData`. -/
theorem applyOverrides_some_meetup (data : MeetupData) (ov : MeetupDataOverride) :
    (applyOverrides data (some ov)).meetup
      = mergeObj MeetupInfo.setProp data.meetup (removeNulls (ov.meetup.getD [])) := by
  show (applySponsorSection ov.sponsor
      (applySpeakersSection ov.speakers (applyMeetupSection ov.meetup data))).meetup = _
  rw [applySponsorSection_meetup, applySpeakersSection_meetup, applyMeetupSection_meetup]

/-- The speaker list of a merged `MeetupData`. -/
theorem applyOverrides_some_speakers (data : MeetupData) (ov : MeetupDataOverride) :
    (applyOverrides data (some ov)).speakers
      = data.speakers.map (overrideSpeaker (ov.speakers.getD [])) := by
  show (applySponsorSection ov.sponsor
      (applySpeakersSection ov.speakers (applyMeetupSection ov.meetup data))).speakers = _
  rw [applySponsorSection_speakers, applySpeakersSection_speakers,
    applyMeetupSection_speakers]

/-- The sponsor of a merged `MeetupData`. -/
theorem applyOverrides_some_sponsor (data : MeetupData) (ov : MeetupDataOverride) :
    (applyOverrides data (some ov)).sponsor
      = data.sponsor.map
          (fun sp => mergeObj SponsorInfo.setProp sp (removeNulls (ov.sponsor.getD []))) := by
  show (applySponsorSection ov.sponsor
      (applySpeakersSection ov.speakers (applyMeetupSection ov.meetup data))).sponsor = _
  rw [applySponsorSection_sponsor, applySpeakersSection_sponsor, applyMeetupSection_sponsor]

/-- Property view of one speaker after the per-speaker override step: keys bound
by the normalized, null-filtered override object under the speaker's name win,
all other keys keep the speaker's value. -/
theorem overrideSpeaker_getProp (speakerOvs : JsObj (JsObj (Option String)))
    (sp : SpeakerInfo) (k : String) :
    (overrideSpeaker speakerOvs sp).getProp k
      = (objGet (removeNulls (normalizeFieldNames
            ((objGet speakerOvs sp.name).getD []))) k).or (sp.getProp k) := by
  unfold overrideSpeaker
  cases ho : objGet speakerOvs sp.name with
  | none =>
    simp [normalizeFieldNames, removeNulls, objGet]
  | some override =>
    simp only [Option.getD_some]
    by_cases h : (removeNulls (normalizeFieldNames override)).isEmpty
    · rw [if_pos h]
      rw [List.isEmpty_iff] at h
      rw [h]
      simp [objGet]
    · rw [if_neg h]
      exact getProp_mergeObj SpeakerInfo.setProp SpeakerInfo.getProp
        getProp_setProp_speakerInfo _ sp k

/-- Folding assignments of bindings with fresh, pairwise distinct keys into an
object appends them in order. -/
theorem foldl_objSet_eq_append {α : Type} :
    ∀ (l : JsObj α) (acc : JsObj α),
      (l.map Prod.fst).Nodup →
      (∀ e ∈ l, acc.any (fun a => a.1 = e.1) = false) →
      l.foldl (fun a e => objSet a e.1 e.2) acc = acc ++ l
  | [], acc, _, _ => by simp
  | e :: t, acc, hnd, hacc => by
    rw [List.map_cons, List.nodup_cons] at hnd
    obtain ⟨hnotin, htail⟩ := hnd
    rw [List.foldl_cons, objSet_of_not_any e.2 (hacc e (List.mem_cons_self _ _))]
    have step : ∀ a ∈ t, (acc ++ [(e.1, e.2)]).any (fun x => x.1 = a.1) = false := by
      intro a ha
      rw [List.any_append]
      have h1 : acc.any (fun x => x.1 = a.1) = false :=
        hacc a (List.mem_cons_of_mem _ ha)
      have h2 : e.1 ≠ a.1 := by
        intro hcontra
        exact hnotin (hcontra ▸ List.mem_map_of_mem Prod.fst ha)
      simp [h1, h2]
    rw [foldl_objSet_eq_append t (acc ++ [(e.1, e.2)]) htail step]
    simp

/-- Folding assignments of pairwise distinct keys into an empty object builds
the corresponding association list in order. -/
theorem foldl_objSet_map_const {α : Type} (l : List String) (g : String → α)
    (hl : l.Nodup) :
    l.foldl (fun acc x => objSet acc x (g x)) [] = l.map (fun x => (x, g x)) := by
  have h1 : l.foldl (fun acc x => objSet acc x (g x)) []
      = (l.map (fun x => (x, g x))).foldl (fun a e => objSet a e.1 e.2) [] := by
    rw [List.foldl_map]
  rw [h1, foldl_objSet_eq_append]
  · rw [List.nil_append]
  · rw [List.map_map]
    simp only [Function.comp_def]
    simpa using hl
  · intro e _
    rfl

/-- On an object with pairwise distinct keys none of which is the legacy
`jobtitle`, key normalization is the identity. -/
theorem normalizeFieldNames_id (obj : JsObj (Option String))
    (hnd : (obj.map Prod.fst).Nodup) (hnj : ∀ e ∈ obj, e.1 ≠ "jobtitle") :
    normalizeFieldNames obj = obj := by
  unfold normalizeFieldNames
  have hfun : ∀ (acc : JsObj (Option String)),
      obj.foldl
        (fun normalized e =>
          objSet normalized (if e.1 = "jobtitle" then "jobTitle" else e.1) e.2) acc
      = obj.foldl (fun normalized e => objSet normalized e.1 e.2) acc := by
    induction obj with
    | nil => intro acc; rfl
    | cons a t ih =>
      intro acc
      rw [List.foldl_cons, List.foldl_cons,
        if_neg (hnj a (List.mem_cons_self _ _))]
      exact ih (List.nodup_cons.mp (by simpa using hnd)).2
        (fun e he => hnj e (List.mem_cons_of_mem _ he)) _
  rw [hfun, foldl_objSet_eq_append obj [] hnd (fun e _ => rfl), List.nil_append]

/-- C1: Merge precedence.  For every `MeetupData` and every non-null override
document, each override field whose value is non-null replaces the
corresponding property of the target object (meetup section, the speaker whose
name equals the mapping key, or the sponsor when one exists), while every
property not bound by the null-filtered (and, for speakers, key-normalized)
override keeps its extracted value. -/
theorem applyOverrides_merge_precedence (data : MeetupData) (ov : MeetupDataOverride) :
    (∀ k, (applyOverrides data (some ov)).meetup.getProp k
        = (objGet (removeNulls (ov.meetup.getD [])) k).or (data.meetup.getProp k))
    ∧ (∀ (i : Nat) (k : String),
        ((applyOverrides data (some ov)).speakers[i]?).map (fun s => s.getProp k)
          = (data.speakers[i]?).map (fun sp =>
              (objGet (removeNulls (normalizeFieldNames
                  ((objGet (ov.speakers.getD []) sp.name).getD []))) k).or (sp.getProp k)))
    ∧ (∀ k,
        ((applyOverrides data (some ov)).sponsor).map (fun s => s.getProp k)
          = (data.sponsor).map (fun sp =>
              (objGet (removeNulls (ov.sponsor.getD [])) k).or (sp.getProp k))) := by
  refine ⟨?_, ?_, ?_⟩
  · intro k
    rw [applyOverrides_some_meetup]
    exact getProp_mergeObj MeetupInfo.setProp MeetupInfo.getProp
      getProp_setProp_meetupInfo _ _ _
  · intro i k
    rw [applyOverrides_some_speakers, List.getElem?_map]
    cases h : data.speakers[i]? with
    | none => rfl
    | some sp =>
      simp only [Option.map_some']
      rw [overrideSpeaker_getProp]
  · intro k
    rw [applyOverrides_some_sponsor]
    cases h : data.sponsor with
    | none => rfl
    | some sp =>
      simp only [Option.map_some']
      rw [getProp_mergeObj SponsorInfo.setProp SponsorInfo.getProp
        getProp_setProp_sponsorInfo]

/-- Witness for C1 at the spec's example: override `company := "Acme"` for
speaker "A" gives company "Acme" with the name unchanged. -/
theorem applyOverrides_merge_precedence_witness :
    ((applyOverrides dataA (some ovAcme)).speakers[0]?).map (fun s => s.getProp "company")
        = some (some "Acme")
      ∧ ((applyOverrides dataA (some ovAcme)).speakers[0]?).map (fun s => s.getProp "name")
        = some (some "A") := by
  constructor
  · rw [(applyOverrides_merge_precedence dataA ovAcme).2.1 0 "company"]
    decide
  · rw [(applyOverrides_merge_precedence dataA ovAcme).2.1 0 "name"]
    decide

/-- C2: Merge idempotence under null sentinels.  An override document all of
whose field values are null merges to the unchanged input. -/
theorem applyOverrides_all_null_identity (data : MeetupData) (ov : MeetupDataOverride)
    (h : allNullDoc ov = true) : applyOverrides data (some ov) = data := by
  have h' := h
  unfold allNullDoc at h'
  rw [Bool.and_eq_true, Bool.and_eq_true] at h'
  obtain ⟨⟨h1, h2⟩, h3⟩ := h'
  have allNull_of : ∀ (obj : JsObj (Option String)), allNullObj obj = true →
      ∀ e ∈ obj, e.2 = none := by
    intro obj hobj e he
    unfold allNullObj at hobj
    rw [List.all_eq_true] at hobj
    simpa using hobj e he
  apply MeetupData.ext
  · rw [applyOverrides_some_meetup]
    have hnil : removeNulls (ov.meetup.getD []) = [] := by
      cases hm : ov.meetup with
      | none => rfl
      | some obj =>
        rw [hm] at h1
        exact removeNulls_eq_nil (allNull_of obj h1)
    rw [hnil]
    rfl
  · rw [applyOverrides_some_speakers]
    have hid : ∀ sp ∈ data.speakers, overrideSpeaker (ov.speakers.getD []) sp = sp := by
      intro sp _
      unfold overrideSpeaker
      cases ho : objGet (ov.speakers.getD []) sp.name with
      | none => rfl
      | some ovObj =>
        have hall : ∀ e ∈ ovObj, e.2 = none := by
          cases hs : ov.speakers with
          | none =>
            rw [hs] at ho
            simp [objGet] at ho
          | some sovs =>
            rw [hs] at ho
            simp only [Option.getD_some] at ho
            obtain ⟨e, he, hk, hv⟩ := objGet_eq_some_mem ho
            rw [hs] at h2
            rw [List.all_eq_true] at h2
            exact allNull_of ovObj (hv ▸ h2 e he) 
        have hnil : removeNulls (normalizeFieldNames ovObj) = [] :=
          removeNulls_eq_nil (normalizeFieldNames_allNull hall)
        simp [hnil]
    rw [List.map_congr_left hid, List.map_id']
  · rw [applyOverrides_some_sponsor]
    have hnil : removeNulls (ov.sponsor.getD []) = [] := by
      cases hsp : ov.sponsor with
      | none => rfl
      | some obj =>
        rw [hsp] at h3
        exact removeNulls_eq_nil (allNull_of obj h3)
    rw [hnil]
    cases data.sponsor <;> rfl

/-- Witness for C2 on a concrete all-null override document. -/
theorem applyOverrides_all_null_identity_witness :
    allNullDoc ovNull = true ∧ applyOverrides dataA (some ovNull) = dataA :=
  ⟨by decide, applyOverrides_all_null_identity dataA ovNull (by decide)⟩

/-- C9: On data whose extracted sponsor is null, the sponsor block of
`applyOverrides` is skipped, so no override can create a sponsor record. -/
theorem applyOverrides_null_sponsor_stays_null (data : MeetupData)
    (ov : MeetupDataOverride) (h : data.sponsor = none) :
    (applyOverrides data (some ov)).sponsor = none := by
  rw [applyOverrides_some_sponsor, h]
  rfl

/-- Witness for C9 on concrete sponsorless data. -/
theorem applyOverrides_null_sponsor_stays_null_witness :
    (applyOverrides dataNoSponsor (some ovAcme)).sponsor = none :=
  applyOverrides_null_sponsor_stays_null dataNoSponsor ovAcme rfl

/-- C3: Key normalization.  A speaker-level `jobtitle` key is rewritten to
`jobTitle` before merging (the merged speaker gets `jobTitle` and no literal
`jobtitle` property), every other key passes through unchanged, and the
rewrite applies only to speaker-level overrides: in the meetup and sponsor
sections a `jobtitle` key is merged literally. -/
theorem jobtitle_normalization :
    (∀ (data : MeetupData) (name v : String),
      (applyOverrides data
          (some ⟨none, some [(name, [("jobtitle", some v)])], none⟩)).speakers
        = data.speakers.map (fun sp =>
            if sp.name = name then { sp with jobTitle := some v } else sp))
    ∧ (∀ obj : JsObj (Option String), (obj.map Prod.fst).Nodup →
        (∀ e ∈ obj, e.1 ≠ "jobtitle") → normalizeFieldNames obj = obj)
    ∧ (∀ (data : MeetupData) (v : String),
        (applyOverrides data
            (some ⟨some [("jobtitle", some v)], none, none⟩)).meetup
          = { data.meetup with extra := objSet data.meetup.extra "jobtitle" v })
    ∧ (∀ (data : MeetupData) (sp0 : SponsorInfo) (v : String),
        data.sponsor = some sp0 →
        (applyOverrides data
            (some ⟨none, none, some [("jobtitle", some v)]⟩)).sponsor
          = some { sp0 with extra := objSet sp0.extra "jobtitle" v }) := by
  refine ⟨?_, ?_, ?_, ?_⟩
  · intro data name v
    rw [applyOverrides_some_speakers]
    simp only [Option.getD_some]
    apply List.map_congr_left
    intro sp _
    by_cases h : sp.name = name
    · rw [if_pos h]
      unfold overrideSpeaker
      rw [show objGet [(name, [("jobtitle", some v)])] sp.name
          = some [("jobtitle", some v)] from by rw [h]; simp [objGet]]
      rfl
    · rw [if_neg h]
      unfold overrideSpeaker
      rw [show objGet [(name, [("jobtitle", some v)])] sp.name = none from by
        rw [objGet_cons]
        rw [show objGet ([] : JsObj (JsObj (Option String))) sp.name = none from rfl,
          Option.none_or]
        exact if_neg (fun hc => h hc.symm)]
  · intro obj hnd hnj
    exact normalizeFieldNames_id obj hnd hnj
  · intro data v
    rw [applyOverrides_some_meetup]
    rfl
  · intro data sp0 v h
    rw [applyOverrides_some_sponsor, h]
    rfl

/-- Witness for C3: `jobtitle` becomes `jobTitle` on a speaker, a key other
than `jobtitle` passes through normalization unchanged, and a sponsor-section
`jobtitle` stays a literal property. -/
theorem jobtitle_normalization_witness :
    (applyOverrides dataA
        (some ⟨none, some [("A", [("jobtitle", some "Eng")])], none⟩)).speakers
      = [{ speakerA with jobTitle := some "Eng" }]
    ∧ normalizeFieldNames [("company", some "Acme")] = [("company", some "Acme")]
    ∧ (applyOverrides dataA
        (some ⟨none, none, some [("jobtitle", some "Eng")]⟩)).sponsor
      = some { name := "S", logo := none, extra := [("jobtitle", "Eng")] } := by
  refine ⟨?_, ?_, ?_⟩
  · rw [jobtitle_normalization.1 dataA "A" "Eng"]
    decide
  · exact jobtitle_normalization.2.1 _ (by decide) (by decide)
  · rw [jobtitle_normalization.2.2.2 dataA { name := "S", logo := none, extra := [] }
      "Eng" rfl]
    decide

/-- C4: Session filter invariant.  The extracted speaker list is exactly the
sessions carrying a non-null nested speaker, in original order, one entry
each. -/
theorem extractSpeakers_session_filter (sessions : List Session) :
    extractSpeakers sessions = extractSpeakersSpec sessions := by
  induction sessions with
  | nil => rfl
  | cons s t ih =>
    cases hs : s.Session_id with
    | none =>
      simp [extractSpeakers, extractSpeakersSpec, hasPopulatedSpeaker, hs,
        List.filter_cons, ih]
    | some sd =>
      cases hsp : sd.speakers with
      | none =>
        simp [extractSpeakers, extractSpeakersSpec, hasPopulatedSpeaker, hs, hsp,
          List.filter_cons, ih]
      | some spk =>
        simp [extractSpeakers, extractSpeakersSpec, hasPopulatedSpeaker, hs, hsp,
          List.filter_cons, ih]

/-- Witness for C4 on the sample meetup (one populated session, one session
with a null nested speaker). -/
theorem extractSpeakers_session_filter_witness :
    extractSpeakers sampleMeetup.sessions = extractSpeakersSpec sampleMeetup.sessions :=
  extractSpeakers_session_filter sampleMeetup.sessions

/-- The avatar derivation agrees with the template mapped over the coerced
username. -/
theorem getGithubAvatar_orNull (g : Option String) :
    getGithubAvatar (orNull g) = (orNull g).map avatarTemplate := by
  cases g with
  | none => rfl
  | some s =>
    show getGithubAvatar (if s.isEmpty then none else some s)
        = (if s.isEmpty then none else some s).map avatarTemplate
    by_cases h : s.isEmpty
    · rw [if_pos h]
      rfl
    · rw [if_neg h]
      simp [getGithubAvatar, avatarTemplate, h]

/-- C5 (amended): avatar consistency holds for the extracted `MeetupData`,
before any override document is applied. -/
theorem avatar_consistency_extracted (meetup : Meetup) :
    avatarConsistent (applyOverrides (buildMeetupData meetup) none) := by
  show avatarConsistent (buildMeetupData meetup)
  intro sp hsp
  have general : ∀ (sessions : List Session) (sp : SpeakerInfo),
      sp ∈ extractSpeakers sessions →
      sp.githubAvatar = sp.githubUsername.map avatarTemplate := by
    intro sessions
    induction sessions with
    | nil =>
      intro sp h
      simp [extractSpeakers] at h
    | cons s t ih =>
      intro sp h
      cases hs : s.Session_id with
      | none =>
        simp only [extractSpeakers, hs] at h
        exact ih sp h
      | some sd =>
        simp only [extractSpeakers, hs] at h
        cases hsp2 : sd.speakers with
        | none =>
          simp only [hsp2] at h
          exact ih sp h
        | some spk =>
          simp only [hsp2] at h
          rcases List.mem_cons.mp h with h1 | h1
          · rw [h1]
            show getGithubAvatar (orNull spk.github_account)
              = (orNull spk.github_account).map avatarTemplate
            exact getGithubAvatar_orNull spk.github_account
          · exact ih sp h1
  exact general meetup.sessions sp hsp

/-- Counterexample for C5 as stated: after an override replacing only
`githubUsername`, the produced data has a speaker whose avatar is not the
template applied to its username. -/
theorem avatar_consistency_counterexample :
    ¬ avatarConsistent (applyOverrides (buildMeetupData sampleMeetup) (some ovGithub)) := by
  decide

/-- Witness for the amended C5 on the sample meetup. -/
theorem avatar_consistency_extracted_witness :
    avatarConsistent (applyOverrides (buildMeetupData sampleMeetup) none) :=
  avatar_consistency_extracted sampleMeetup

/-- C6: Sponsor extraction.  Only the first entry of the sponsor list is used;
an empty list or a first entry without a nested sponsor object yields null;
otherwise the sponsor has that entry's name and the asset-host template applied
to the logo filename when a logo exists, else a null logo. -/
theorem extractSponsor_first_entry :
    (extractSponsor [] = none)
    ∧ (∀ (e : Sponsor) (t : List Sponsor), e.Sponsor_id = none →
        extractSponsor (e :: t) = none)
    ∧ (∀ (e : Sponsor) (t : List Sponsor) (sd : SponsorData), e.Sponsor_id = some sd →
        extractSponsor (e :: t)
          = some { name := sd.Name
                   logo := sd.Logo.map (fun l => getSponsorLogoUrl l.filename_disk)
                   extra := [] })
    ∧ (∀ m : Meetup, (buildMeetupData m).sponsor = extractSponsor m.sponsors) := by
  refine ⟨rfl, ?_, ?_, fun m => rfl⟩
  · intro e t h
    simp [extractSponsor, h]
  · intro e t sd h
    cases hl : sd.Logo <;> simp [extractSponsor, h, hl]

/-- Witness for C6: the sample meetup's sponsor Acme has no logo but a non-null
name. -/
theorem extractSponsor_first_entry_witness :
    extractSponsor sampleMeetup.sponsors
      = some { name := "Acme", logo := none, extra := [] } := by
  rw [show sampleMeetup.sponsors
      = [{ id := 1, Sponsor_id := some { id := "s1", Name := "Acme", Logo := none } }]
    from rfl]
  rw [extractSponsor_first_entry.2.2.1 _ [] { id := "s1", Name := "Acme", Logo := none } rfl]
  decide

/-- C7: Malformed-override recovery.  Unparseable override content reads as "no
overrides" (as does a missing file) and the run completes with the unmerged
data. -/
theorem readOverrides_malformed_recovery :
    (∀ raw : String, readOverrides (some (OverrideFileContent.invalid raw)) = none)
    ∧ readOverrides none = none
    ∧ (∀ (data : MeetupData) (names extras : List String) (raw : String),
        runOverridePhase data names extras (some (OverrideFileContent.invalid raw)) = data) :=
  ⟨fun _ => rfl, rfl, fun _ _ _ _ => rfl⟩

/-- Witness for C7 at a concrete malformed file. -/
theorem readOverrides_malformed_recovery_witness :
    runOverridePhase dataA [] [] (some (OverrideFileContent.invalid "not json")) = dataA :=
  readOverrides_malformed_recovery.2.2 dataA [] [] "not json"

/-- C8: Template preservation.  An existing override file (whatever its
content) is never rewritten; only on a missing file is the scaffold written,
with one entry per extracted speaker name pre-populated with the configured
extra fields set to null, plus empty meetup and sponsor sections. -/
theorem createOverrideTemplate_preserves_existing :
    (∀ (names extras : List String) (c : OverrideFileContent),
      createOverrideTemplate names extras (some c) = some c)
    ∧ (∀ (names extras : List String), names.Nodup → extras.Nodup →
        createOverrideTemplate names extras none
          = some (OverrideFileContent.valid
              { meetup := some []
                speakers := some (names.map (fun n =>
                  (n, extras.map (fun f => (f, (none : Option String))))))
                sponsor := some [] })) := by
  constructor
  · intro names extras c
    rfl
  · intro names extras hn he
    simp only [createOverrideTemplate, overrideTemplate]
    rw [foldl_objSet_map_const extras (fun _ => (none : Option String)) he]
    rw [foldl_objSet_map_const names
      (fun _ => extras.map (fun f => (f, (none : Option String)))) hn]

/-- Witness for C8 on a concrete speaker list and extra-field list. -/
theorem createOverrideTemplate_preserves_existing_witness :
    createOverrideTemplate ["Jane"] ["company", "jobTitle"]
        (some (OverrideFileContent.valid ovNull))
      = some (OverrideFileContent.valid ovNull)
    ∧ createOverrideTemplate ["Jane"] ["company", "jobTitle"] none
      = some (OverrideFileContent.valid
          { meetup := some []
            speakers := some [("Jane", [("company", none), ("jobTitle", none)])]
            sponsor := some [] }) := by
  constructor
  · exact createOverrideTemplate_preserves_existing.1 ["Jane"] ["company", "jobTitle"] _
  · rw [createOverrideTemplate_preserves_existing.2 ["Jane"] ["company", "jobTitle"]
      (by decide) (by decide)]
    decide

/-- C10: A nested speaker whose `github_account` is the empty string extracts
with both `githubUsername` and `githubAvatar` null, and such a session does
contribute its entry to the extracted list. -/
theorem empty_github_account_coerced :
    (∀ (sd : SessionData) (spk : Speaker), spk.github_account = some "" →
      (speakerOfSession sd spk).githubUsername = none
        ∧ (speakerOfSession sd spk).githubAvatar = none)
    ∧ (∀ (s : Session) (rest : List Session) (sd : SessionData) (spk : Speaker),
        s.Session_id = some sd → sd.speakers = some spk →
        extractSpeakers (s :: rest) = speakerOfSession sd spk :: extractSpeakers rest) := by
  constructor
  · intro sd spk h
    refine ⟨?_, ?_⟩
    · show orNull spk.github_account = none
      rw [h]
      decide
    · show getGithubAvatar (orNull spk.github_account) = none
      rw [h]
      decide
  · intro s rest sd spk h1 h2
    simp only [extractSpeakers, h1, h2]

/-- Witness for C10 at a concrete session with an empty `github_account`. -/
theorem empty_github_account_coerced_witness :
    (speakerOfSession { title := "T", speakers := none }
        { id := "x", name := "X", github_account := some "" }).githubUsername = none
    ∧ (speakerOfSession { title := "T", speakers := none }
        { id := "x", name := "X", github_account := some "" }).githubAvatar = none :=
  empty_github_account_coerced.1 _ _ rfl
